import Mathlib

/-!
Shallow embedding of the Pulsar Trait Editor plugin (`src/src/lib.rs`).

The plugin registers one folder-based file type ("trait") and one editor
("trait-editor") with a host application, and keeps a registry of live
editor instances: a `HashMap<usize, EditorStorage>` behind one mutex and a
`usize` id counter behind a second mutex (lib.rs lines 42-45).

Modelling conventions:
 - `PathBuf` becomes `FsPath`, a list of components; `PathBuf::join` with a
   file-name argument appends one component.  `PathBuf::is_dir` queries the
   real filesystem, so is passed in as a parameter `is_dir : FsPath → Bool`.
 - The `HashMap` becomes an association list whose `insert` replaces any
   existing binding, so `len` is the list length.
 - `create_editor` in Rust mutates `&self` through the mutexes and returns
   `Result<(Arc<dyn PanelView>, Box<dyn EditorInstance>), PluginError>`;
   here it returns the `Except` result paired with the post-state.
 - `Window`, `App`, the logger and the `log::info!` calls carry no registry
   state and are dropped.  The panel entity `TraitEditor` is constructed by
   `TraitEditor::new_with_file(actual_path, ..)` in module `editor` (a file
   not shipped alongside lib.rs); only its constructor argument matters to
   the properties below, so it is modelled as a record of that argument.
-/

/-- A filesystem path, as a list of components (embedding of `PathBuf`). -/
structure FsPath where
  components : List String
deriving DecidableEq, Repr

/-- Embedding of `PathBuf::join` with a single file-name component, as used
at lib.rs line 107 (`file_path.join("trait.json")`). -/
def FsPath.join (p : FsPath) (s : String) : FsPath :=
  ⟨p.components ++ [s]⟩

/-- A minimal JSON value model, enough for the `json!` literal at
lib.rs lines 79-82. -/
inductive Json where
  | str (s : String)
  | arr (elems : List Json)
  | obj (fields : List (String × Json))

/-- Embedding of `FileStructure` from the plugin editor API; the one variant
used is `FolderBased { marker_file, template_structure }` (lib.rs 75-78). -/
inductive FileStructure where
  | FolderBased (marker_file : String) (template_structure : List String)

/-- Embedding of the icon value used (`ui::IconName::Code`, lib.rs 73). -/
inductive IconName where
  | Code

/-- Embedding of `FileTypeDefinition` (fields as at lib.rs 69-84).
`FileTypeId` is modelled as the underlying string.  The Rust field
`structure` is a Lean keyword, hence `structure_`. -/
structure FileTypeDefinition where
  id : String
  extension : String
  display_name : String
  icon : IconName
  color : Nat
  structure_ : FileStructure
  default_content : Json
  categories : List String

/-- Embedding of `EditorMetadata` (lib.rs 89-93); `EditorId` and
`FileTypeId` are modelled as the underlying strings. -/
structure EditorMetadata where
  id : String
  display_name : String
  supported_file_types : List String
deriving DecidableEq, Repr

/-- Embedding of the `PluginError` variant produced by this plugin
(lib.rs line 134). -/
inductive PluginError where
  | EditorNotFound (editor_id : String)

/-- The panel entity: `TraitEditor::new_with_file(actual_path, window, cx)`
(lib.rs 112) constructs it from the resolved path; its internals live in
the `editor` module and do not affect the registry, so only the path it
was opened with is modelled. -/
structure TraitEditor where
  file : FsPath
deriving DecidableEq, Repr

/-- Embedding of `TraitEditorWrapper` (lib.rs 150-154): the panel entity
plus the original `file_path` argument. -/
structure TraitEditorWrapper where
  panel : TraitEditor
  file_path : FsPath
deriving DecidableEq, Repr

/-- Embedding of `TraitEditorWrapper::is_dirty` (lib.rs 173-175): the body
is literally `false`. -/
def is_dirty (_w : TraitEditorWrapper) : Bool :=
  false

/-- Embedding of `EditorStorage` (lib.rs 36-39): the shared panel handle and
the owned wrapper stored per instance. -/
structure EditorStorage where
  panel : TraitEditor
  wrapper : TraitEditorWrapper
deriving DecidableEq, Repr

/-- Embedding of the `TraitEditorPlugin` state (lib.rs 42-45): the
`editors` table (`HashMap<usize, EditorStorage>`) and the `next_editor_id`
counter.  The two mutexes around them are invisible to the sequential
semantics; the fine-grained two-lock semantics is modelled separately
below (`RegAction`). -/
structure TraitEditorPlugin where
  editors : List (Nat × EditorStorage)
  next_editor_id : Nat
deriving DecidableEq, Repr

/-- Embedding of `Default for TraitEditorPlugin` (lib.rs 47-54): empty
table, counter 0. -/
def TraitEditorPlugin.default : TraitEditorPlugin :=
  { editors := [], next_editor_id := 0 }

/-- `HashMap::insert`: replace any existing binding for the key. -/
def hmInsert (k : Nat) (v : EditorStorage) (m : List (Nat × EditorStorage)) :
    List (Nat × EditorStorage) :=
  (k, v) :: m.filter (fun kv => kv.1 != k)

/-- Embedding of `TraitEditorPlugin::file_types` (lib.rs 67-86). -/
def file_types : List FileTypeDefinition :=
  [{ id := "trait"
     extension := "trait"
     display_name := "Trait Definition"
     icon := IconName.Code
     color := 0x3F51B5
     structure_ := FileStructure.FolderBased "trait.json" []
     default_content := Json.obj
       [("name", Json.str "NewTrait"), ("methods", Json.arr [])]
     categories := ["Types"] }]

/-- Embedding of `TraitEditorPlugin::editors` (lib.rs 88-94). -/
def editors : List EditorMetadata :=
  [{ id := "trait-editor"
     display_name := "Trait Editor"
     supported_file_types := ["trait"] }]

/-- The document path resolution inside `create_editor` (lib.rs 106-110):
`if file_path.is_dir() { file_path.join("trait.json") } else { file_path }`.
Named after the local variable `actual_path` it is bound to. -/
def actual_path (is_dir : FsPath → Bool) (file_path : FsPath) : FsPath :=
  if is_dir file_path then file_path.join "trait.json" else file_path

/-- Embedding of `TraitEditorPlugin::create_editor` (lib.rs 96-136).
Returns the `Result` value together with the post-state of the plugin:
on success the panel and wrapper are built from the resolved path and the
original path, the id is read from the counter which is then incremented
(lines 119-124), and the record is inserted (lines 126-129); on an unknown
`editor_id` the error names the requested id and the state is untouched
(line 134). -/
def create_editor (is_dir : FsPath → Bool) (s : TraitEditorPlugin)
    (editor_id : String) (file_path : FsPath) :
    Except PluginError (TraitEditor × TraitEditorWrapper) × TraitEditorPlugin :=
  if editor_id = "trait-editor" then
    let ap := actual_path is_dir file_path
    let panel : TraitEditor := { file := ap }
    let wrapper : TraitEditorWrapper := { panel := panel, file_path := file_path }
    let id := s.next_editor_id
    (Except.ok (panel, wrapper),
      { editors := hmInsert id { panel := panel, wrapper := wrapper } s.editors
        next_editor_id := id + 1 })
  else
    (Except.error (PluginError.EditorNotFound editor_id), s)

/-- Embedding of `TraitEditorPlugin::on_unload` (lib.rs 142-147): clears the
`editors` table and logs its previous size; the logged count is returned
here so it can be reasoned about.  The id counter is not touched. -/
def on_unload (s : TraitEditorPlugin) : Nat × TraitEditorPlugin :=
  (s.editors.length, { s with editors := [] })

/-- A host-driven call against the plugin facade: an attempt to create an
editor, or a plugin unload. -/
inductive HostOp where
  | create (editor_id : String) (file_path : FsPath)
  | unload
deriving DecidableEq, Repr

/-- State transition of one host call (result values discarded). -/
def stepOp (is_dir : FsPath → Bool) (s : TraitEditorPlugin) :
    HostOp → TraitEditorPlugin
  | HostOp.create eid p => (create_editor is_dir s eid p).2
  | HostOp.unload => (on_unload s).2

/-- The InstanceIds assigned to the successful `create_editor` calls of an
op sequence, in order.  A create succeeds exactly when it asks for
"trait-editor", and the id it is assigned is the pre-state counter
(lib.rs 119-124). -/
def assignedIds (is_dir : FsPath → Bool) (s : TraitEditorPlugin) :
    List HostOp → List Nat
  | [] => []
  | HostOp.create eid p :: rest =>
      if eid = "trait-editor" then
        s.next_editor_id ::
          assignedIds is_dir (stepOp is_dir s (HostOp.create eid p)) rest
      else
        assignedIds is_dir (stepOp is_dir s (HostOp.create eid p)) rest
  | HostOp.unload :: rest =>
      assignedIds is_dir (stepOp is_dir s HostOp.unload) rest

/-- The number of successful creates in an op sequence. -/
def successCount : List HostOp → Nat
  | [] => 0
  | HostOp.create eid _ :: rest =>
      if eid = "trait-editor" then successCount rest + 1 else successCount rest
  | HostOp.unload :: rest => successCount rest

/-!
Fine-grained two-lock semantics of the registry.

`TraitEditorPlugin` holds `editors` and `next_editor_id` behind two
SEPARATE mutexes (lib.rs 43-44).  Each lock-guarded critical section is
one atomic action:
 - `assignId tid` — the block at lib.rs 119-124: lock `next_editor_id`,
   read the counter into the thread's local `id`, increment, unlock;
 - `insertRecord tid` — lib.rs 126-129: lock `editors`, insert the record
   under the thread's previously assigned `id`, unlock;
 - `clearAll` — lib.rs 143-146 (`on_unload`): lock `editors`, clear.
Nothing in the code holds both locks at once, so any interleaving of these
atomic actions is a possible concurrent history, provided each creating
thread performs its `assignId` before its `insertRecord`.
-/

/-- One lock-guarded atomic action of the two-lock registry. -/
inductive RegAction where
  | assignId (tid : Nat)
  | insertRecord (tid : Nat)
  | clearAll
deriving DecidableEq, Repr

/-- Well-formedness scan: each thread assigns at most once, inserts at most
once, and only inserts after its assign.  `asg`/`ins` are the tids that
have already assigned / inserted. -/
def wfAux : List RegAction → List Nat → List Nat → Bool
  | [], _, _ => true
  | RegAction.assignId t :: rest, asg, ins =>
      !(asg.contains t) && wfAux rest (t :: asg) ins
  | RegAction.insertRecord t :: rest, asg, ins =>
      asg.contains t && !(ins.contains t) && wfAux rest asg (t :: ins)
  | RegAction.clearAll :: rest, asg, ins => wfAux rest asg ins

/-- A concurrent history is well-formed when every thread follows the
program order of `create_editor`: assign its id, then insert. -/
def wfTrace (tr : List RegAction) : Bool :=
  wfAux tr [] []

/-- Shared registry state of the fine-grained semantics: the keys of the
`editors` table, the `next_editor_id` counter, and each thread's local
`id` variable (assigned but possibly not yet inserted). -/
structure RegState where
  table : List Nat
  counter : Nat
  pendingIds : List (Nat × Nat)
deriving DecidableEq, Repr

/-- The registry state of a freshly constructed plugin. -/
def initRegState : RegState :=
  { table := [], counter := 0, pendingIds := [] }

/-- Effect of one atomic action on the shared registry state. -/
def regStep (st : RegState) : RegAction → RegState
  | RegAction.assignId t =>
      { st with counter := st.counter + 1
                pendingIds := (t, st.counter) :: st.pendingIds }
  | RegAction.insertRecord t =>
      match st.pendingIds.lookup t with
      | some id => { st with table := id :: st.table.filter (fun k => k != id) }
      | none => st
  | RegAction.clearAll => { st with table := [] }

/-- Run a concurrent history from a registry state. -/
def regRun (st : RegState) (tr : List RegAction) : RegState :=
  tr.foldl regStep st

/-- The ids handed out by the `assignId` actions of a history, in order. -/
def concAssignedIds (st : RegState) : List RegAction → List Nat
  | [] => []
  | RegAction.assignId t :: rest =>
      st.counter :: concAssignedIds (regStep st (RegAction.assignId t)) rest
  | a :: rest => concAssignedIds (regStep st a) rest

/-- The number of `assignId` actions in a history. -/
def assignCount : List RegAction → Nat
  | [] => 0
  | RegAction.assignId _ :: rest => assignCount rest + 1
  | RegAction.insertRecord _ :: rest => assignCount rest
  | RegAction.clearAll :: rest => assignCount rest

/-- Detector for the interleaving the spec rules out: some thread's
`assignId` at position `i`, a `clearAll` at position `j`, and the same
thread's `insertRecord` at position `k`, with `i < j < k`. -/
def clearBetween (tr : List RegAction) : Bool :=
  (List.range tr.length).any fun i =>
    (List.range tr.length).any fun j =>
      (List.range tr.length).any fun k =>
        decide (i < j) && decide (j < k) &&
        match tr.get? i, tr.get? j, tr.get? k with
        | some (RegAction.assignId t1), some RegAction.clearAll,
          some (RegAction.insertRecord t2) => t1 == t2
        | _, _, _ => false

/-!
Helper lemmas.
-/

/-- An interval list `range' s n` of step 1 is strictly sorted. -/
theorem pairwise_lt_range_interval (n : Nat) :
    ∀ s : Nat, List.Pairwise (· < ·) (List.range' s n) := by
  induction n with
  | zero => intro s; simp
  | succ k ih =>
    intro s
    rw [show List.range' s (k + 1) = s :: List.range' (s + 1) k from rfl]
    refine List.Pairwise.cons (fun x hx => ?_) (ih (s + 1))
    have hb := (List.mem_range'_1.mp hx).1
    omega

/-- A successful create bumps the id counter by exactly one. -/
theorem create_editor_ok_next (is_dir : FsPath → Bool) (s : TraitEditorPlugin)
    (p : FsPath) :
    (create_editor is_dir s "trait-editor" p).2.next_editor_id
      = s.next_editor_id + 1 := by
  simp [create_editor]

/-- A failed create leaves the whole state untouched. -/
theorem create_editor_err_state (is_dir : FsPath → Bool) (s : TraitEditorPlugin)
    (eid : String) (p : FsPath) (h : ¬ eid = "trait-editor") :
    (create_editor is_dir s eid p).2 = s := by
  simp [create_editor, h]

/-- The ids assigned along any op sequence form the interval starting at
the current counter whose length is the number of successful creates. -/
theorem assignedIds_eq_interval (is_dir : FsPath → Bool) :
    ∀ (ops : List HostOp) (s : TraitEditorPlugin),
      assignedIds is_dir s ops
        = List.range' s.next_editor_id (successCount ops) := by
  intro ops
  induction ops with
  | nil => intro s; rfl
  | cons op rest ih =>
    intro s
    cases op with
    | create eid p =>
      by_cases h : eid = "trait-editor"
      · subst h
        simp only [assignedIds, successCount, if_pos rfl, eq_self_iff_true, if_true]
        rw [ih]
        rw [show List.range' s.next_editor_id (successCount rest + 1)
              = s.next_editor_id ::
                  List.range' (s.next_editor_id + 1) (successCount rest) from rfl]
        rw [show (stepOp is_dir s (HostOp.create "trait-editor" p))
              = (create_editor is_dir s "trait-editor" p).2 from rfl]
        rw [create_editor_ok_next]
      · simp only [assignedIds, successCount, if_neg h]
        rw [ih]
        rw [show (stepOp is_dir s (HostOp.create eid p))
              = (create_editor is_dir s eid p).2 from rfl]
        rw [create_editor_err_state is_dir s eid p h]
    | unload =>
      simp only [assignedIds, successCount]
      rw [ih]
      rfl

/-- Only `assignId` changes the counter of the fine-grained registry, and
it bumps it by one. -/
theorem regStep_counter (st : RegState) :
    ∀ a : RegAction,
      (regStep st a).counter
        = match a with
          | RegAction.assignId _ => st.counter + 1
          | _ => st.counter := by
  intro a
  cases a with
  | assignId t => rfl
  | insertRecord t =>
      cases hl : st.pendingIds.lookup t <;> simp [regStep, hl]
  | clearAll => rfl

/-- In the fine-grained semantics the ids handed out along any history form
the interval starting at the current counter. -/
theorem concAssignedIds_eq_interval :
    ∀ (tr : List RegAction) (st : RegState),
      concAssignedIds st tr = List.range' st.counter (assignCount tr) := by
  intro tr
  induction tr with
  | nil => intro st; rfl
  | cons a rest ih =>
    intro st
    cases a with
    | assignId t =>
      simp only [concAssignedIds, assignCount]
      rw [ih]
      rw [show (regStep st (RegAction.assignId t)).counter = st.counter + 1 from rfl]
      rfl
    | insertRecord t =>
      simp only [concAssignedIds, assignCount]
      rw [ih, regStep_counter]
    | clearAll =>
      simp only [concAssignedIds, assignCount]
      rw [ih]
      rfl

/-!
The claims.
-/

/-- C1: over every sequence of host calls — successful creates interleaved
with unloads — the InstanceIds assigned are strictly increasing (hence
never repeated), and `on_unload` leaves the id counter unchanged, so ids
assigned after a clear exceed all ids assigned before it. -/
theorem create_editor_ids_strictly_increasing (is_dir : FsPath → Bool)
    (ops : List HostOp) (s : TraitEditorPlugin) :
    List.Pairwise (· < ·) (assignedIds is_dir s ops)
    ∧ (on_unload s).2.next_editor_id = s.next_editor_id := by
  constructor
  · rw [assignedIds_eq_interval]
    exact pairwise_lt_range_interval _ _
  · rfl

/-- C2: for every editor id other than "trait-editor" and every path,
`create_editor` fails with `EditorNotFound` carrying exactly the requested
id, and the plugin state — instance table and id counter — is unchanged. -/
theorem create_editor_unknown_editor (is_dir : FsPath → Bool)
    (s : TraitEditorPlugin) (eid : String) (p : FsPath)
    (h : eid ≠ "trait-editor") :
    create_editor is_dir s eid p
      = (Except.error (PluginError.EditorNotFound eid), s) := by
  simp [create_editor, h]

/-- Witness for C2 at the concrete editor id "level-editor". -/
theorem create_editor_unknown_editor_witness :
    ("level-editor" : String) ≠ "trait-editor"
    ∧ create_editor (fun _ => false) TraitEditorPlugin.default
        "level-editor" ⟨["traits"]⟩
      = (Except.error (PluginError.EditorNotFound "level-editor"),
         TraitEditorPlugin.default) :=
  ⟨by decide,
   create_editor_unknown_editor (fun _ => false) TraitEditorPlugin.default
     "level-editor" ⟨["traits"]⟩ (by decide)⟩

/-- C3: the document resolution used by `create_editor` yields
`path / "trait.json"` when the path is a directory and the path unchanged
otherwise, and involves no existence check or error: a create for
"trait-editor" succeeds whatever `is_dir` answers. -/
theorem actual_path_resolution (is_dir : FsPath → Bool) (p : FsPath) :
    (is_dir p = true → actual_path is_dir p = p.join "trait.json")
    ∧ (is_dir p = false → actual_path is_dir p = p)
    ∧ ∀ s : TraitEditorPlugin, ∃ r,
        (create_editor is_dir s "trait-editor" p).1 = Except.ok r := by
  refine ⟨fun h => ?_, fun h => ?_, fun s =>
    ⟨({ file := actual_path is_dir p },
      { panel := { file := actual_path is_dir p }, file_path := p }), ?_⟩⟩
  · simp [actual_path, h]
  · simp [actual_path, h]
  · simp [create_editor]

/-- Witness for C3 at a concrete path under both filesystem answers. -/
theorem actual_path_resolution_witness :
    actual_path (fun _ => true) ⟨["proj"]⟩ = FsPath.join ⟨["proj"]⟩ "trait.json"
    ∧ actual_path (fun _ => false) ⟨["proj"]⟩ = ⟨["proj"]⟩ :=
  ⟨(actual_path_resolution (fun _ => true) ⟨["proj"]⟩).1 rfl,
   (actual_path_resolution (fun _ => false) ⟨["proj"]⟩).2.1 rfl⟩

/-- C4: after `on_unload` the registry holds zero instances, the count it
reports (logs) equals the number of instances live immediately before the
call, and unloading with no live instances reports 0. -/
theorem on_unload_clears_and_counts (s : TraitEditorPlugin) :
    (on_unload s).2.editors = []
    ∧ (on_unload s).1 = s.editors.length
    ∧ (on_unload { editors := [], next_editor_id := s.next_editor_id }).1 = 0 :=
  ⟨rfl, rfl, rfl⟩

/-- C5 counterexample: the claim that the counter increment and the record
insertion form one atomic step — so that no clear can be interleaved
between them — is false for this code.  The two are guarded by two
different mutexes (lib.rs 43-44), so the well-formed history
`[assignId 0, clearAll, insertRecord 0]` is possible, it has a clear
strictly between the assign and the insert of thread 0, and running it
leaves instance 0 in the table even though the clear ran after its id was
assigned. -/
theorem create_clear_interleaving_exists :
    (¬ ∀ tr : List RegAction, wfTrace tr = true → clearBetween tr = false)
    ∧ (regRun initRegState
        [RegAction.assignId 0, RegAction.clearAll,
         RegAction.insertRecord 0]).table = [0] := by
  constructor
  · intro h
    exact absurd
      (h [RegAction.assignId 0, RegAction.clearAll, RegAction.insertRecord 0]
        (by decide))
      (by decide)
  · rfl

/-- C5 (amended): the id assignment and the insertion are two separate
atomic steps under two different locks, so a concurrent clear may fall
between them; but because each assignment atomically reads and increments
the counter under its own lock, the ids handed out along any concurrent
history are still strictly increasing and never repeat. -/
theorem conc_assigned_ids_distinct (tr : List RegAction) :
    List.Pairwise (· < ·) (concAssignedIds initRegState tr) := by
  rw [concAssignedIds_eq_interval]
  exact pairwise_lt_range_interval _ _

/-- C6: `is_dirty` on a wrapper returns false whatever the wrapper and
whatever sequence of operations has been applied to it. -/
theorem is_dirty_always_false (w : TraitEditorWrapper)
    (ops : List (TraitEditorWrapper → TraitEditorWrapper)) :
    is_dirty (ops.foldl (fun acc f => f acc) w) = false :=
  rfl

/-- C7: a successful create on `file_path` returns a wrapper whose
`file_path` is exactly the original argument, while the panel is opened on
the resolved path — so for a directory argument the two differ. -/
theorem create_editor_preserves_file_path (is_dir : FsPath → Bool)
    (s : TraitEditorPlugin) (p : FsPath) :
    ∃ pan w s2,
      create_editor is_dir s "trait-editor" p = (Except.ok (pan, w), s2)
      ∧ w.file_path = p
      ∧ pan.file = actual_path is_dir p := by
  refine ⟨{ file := actual_path is_dir p },
          { panel := { file := actual_path is_dir p }, file_path := p },
          (create_editor is_dir s "trait-editor" p).2, ?_, rfl, rfl⟩
  simp [create_editor]

/-- C8: the declared trait file type carries default content
`obj [name ↦ "NewTrait", methods ↦ []]` and a FolderBased structure whose
marker file is "trait.json". -/
theorem trait_file_type_declaration :
    file_types.map (fun ft => ft.default_content)
      = [Json.obj [("name", Json.str "NewTrait"), ("methods", Json.arr [])]]
    ∧ file_types.map (fun ft => ft.structure_)
      = [FileStructure.FolderBased "trait.json" []] :=
  ⟨rfl, rfl⟩

/-- C9: every file-type id referenced by the supported set of every
declared editor occurs among the ids of the declared file types. -/
theorem editors_reference_declared_file_types :
    ∀ e ∈ editors, ∀ ftid ∈ e.supported_file_types,
      ftid ∈ file_types.map (fun ft => ft.id) := by
  decide

/-- Witness for C9 at the one declared editor and its one file type id. -/
theorem editors_reference_declared_file_types_witness :
    ("trait" : String) ∈ file_types.map (fun ft => ft.id) :=
  editors_reference_declared_file_types
    { id := "trait-editor", display_name := "Trait Editor",
      supported_file_types := ["trait"] }
    (by decide) "trait" (by decide)

/-- C10: starting from the default plugin state, the assigned ids are the
consecutive integers 0, 1, 2, … — the first successful create gets 0 and
each later one gets the previous id plus one, unloads included. -/
theorem ids_consecutive_from_zero (is_dir : FsPath → Bool)
    (ops : List HostOp) :
    assignedIds is_dir TraitEditorPlugin.default ops
      = List.range (successCount ops) := by
  rw [assignedIds_eq_interval, List.range_eq_range' (successCount ops)]
  rfl

